import Mathlib

/-!
Verification development for the burning-chrome paginated CDX fetch core.

Shallow embedding of:
* `lib/data-sources/cdx-constants.js` — configuration constants
* `lib/data-sources/cdx-parser.js`    — `parseCDXResponse`, `formatRecordsForDisplay`
* `lib/data-sources/cdx-retry.js`     — `handleRateLimit`, `handleFetchError`, `cancellableSleep`
* `lib/data-sources/cdx-fetch.js`     — `fetchCDXPage`, `buildCDXUrl`
* `lib/data-sources/cdx.js`           — `fetchAllCDXData`

Modelling conventions:
* JS `async` control flow is sequential here; thrown errors become `Except.error`.
* The environment (`Env`) supplies the deterministic outside world: the network
  (one `AttemptOutcome` per `(domain, resumeKey, retryCount)` request), the
  polled cancellation flag (one `Bool` per explicit poll site, indexed by a
  poll counter), and a wall-clock timestamp stream for debug-log entries
  (indexed by the number of log entries written so far).
* The mutable world is threaded as an explicit state `St`: the shared debug
  log of `cdx-debug.js`, the poll counter, and an observation trace
  (requests issued, backoff sleeps requested, milliseconds actually slept,
  progress-callback invocations).
* The in-flight 500 ms cancellation interval of `fetchCDXPage` is folded into
  the per-attempt network outcome (`fetchError` with `wasCancelled`), since
  its effect is exactly an aborted request distinguished by that flag.
* Recursion that the JS bounds dynamically (`retryCount < MAX_RETRIES`, the
  unbounded page loop) is embedded with an explicit gas parameter; the gas
  given by the wrappers provably suffices for every retry chain, and page-gas
  appears as a hypothesis where pagination is unbounded.
-/

set_option maxRecDepth 8000

/-- cdx-constants.js: `MAX_RETRIES`. -/
def MAX_RETRIES : Nat := 3

/-- cdx-constants.js: `CDX_BATCH_SIZE`. -/
def CDX_BATCH_SIZE : Nat := 1000

/-- cdx-constants.js: `CDX_TIMEOUT_MS`. -/
def CDX_TIMEOUT_MS : Nat := 60000

/-- One parsed CDX record, as built by `parseCDXResponse` in cdx-parser.js. -/
structure CDXRecord where
  url : String
  timestamp : String
  statuscode : String
  mimetype : String
deriving DecidableEq, Repr

/-- The result of parsing one page: `{records, resumeKey, hasMore}`
(cdx-parser.js). -/
structure PageResult where
  records : List CDXRecord
  resumeKey : String
  hasMore : Bool
deriving DecidableEq, Repr

/-- The record object pushed for one data row in `parseCDXResponse`:
`{url: row[0], timestamp: row[1], statuscode: row[2] || '', mimetype: row[3] || ''}`.
On `String` fields, JS `x || ''` is the identity (the empty string maps to
itself), so the fields are read off directly. -/
def rowRecord (row : List String) : CDXRecord :=
  { url := row.getD 0 ""
    timestamp := row.getD 1 ""
    statuscode := row.getD 2 ""
    mimetype := row.getD 3 "" }

/-- `parseCDXResponse(rawRows)` from cdx-parser.js.  The payload is typed as
rows of string fields (the JS `Array.isArray` guards are satisfied by the
type).  A single-field last row is stripped and used as the resume key with
`hasMore = true`; the header row (index 0) is skipped; rows with fewer than
4 fields are dropped. -/
def parseCDXResponse (rawRows : List (List String)) : PageResult :=
  if rawRows.length = 0 then
    { records := [], resumeKey := "", hasMore := false }
  else
    let lastRow := rawRows.getLastD []
    let stripped := if lastRow.length = 1 then rawRows.dropLast else rawRows
    let resumeKey := if lastRow.length = 1 then lastRow.getD 0 "" else ""
    let hasMore := if lastRow.length = 1 then true else false
    { records := (stripped.drop 1).filterMap fun row =>
        if row.length < 4 then none else some (rowRecord row)
      resumeKey := resumeKey
      hasMore := hasMore }

/-- `formatRecordsForDisplay(records)` from cdx-parser.js: a header row
followed by one 4-field row per record. -/
def formatRecordsForDisplay (records : List CDXRecord) : List (List String) :=
  ["original", "timestamp", "statuscode", "mimetype"] ::
    records.map fun r => [r.url, r.timestamp, r.statuscode, r.mimetype]

/-- Outcome of one `fetch` call inside `fetchCDXPage` (cdx-fetch.js): either the
response resolved with a status and (for consumed bodies) parsed JSON rows, or
the promise rejected with a named error.  An `AbortError` stems from the
per-attempt timeout, or — when `wasCancelled` is true — from the 500 ms
cancellation-poll interval having aborted the request; a `TypeError` is a
network-layer failure. -/
inductive AttemptOutcome where
  | http (status : Nat) (body : List (List String)) (elapsed : Nat)
  | fetchError (name msg : String) (wasCancelled : Bool) (elapsed : Nat)
deriving DecidableEq, Repr

/-- A thrown JS `Error` as this codebase builds and decorates them:
`name` (constructor name), `message`, the `err.cancelled` tag and the
`err.debugLog` string (empty = not set, matching JS `||` falsiness). -/
structure JSError where
  name : String := "Error"
  message : String
  cancelled : Bool := false
  debugLog : String := ""
deriving DecidableEq, Repr

/-- The deterministic external world of one fetch session:
* `clock k` — wall-clock timestamp string for the `k`-th debug entry
  (abstracts `new Date().toISOString()` in `addDebug`);
* `cancel k` — value of the stored `timemapData.cancelled` flag at the `k`-th
  explicit poll (orchestrator checks and backoff-tick checks);
* `net domain resumeKey retryCount` — outcome of the page request issued for
  that cursor and attempt (the upstream is deterministic, as the spec's
  idempotence assumption requires). -/
structure Env where
  clock : Nat → String
  cancel : Nat → Bool
  net : String → String → Nat → AttemptOutcome

/-- Threaded mutable world: the shared debug log of cdx-debug.js, the poll
counter, and the observation trace (page requests issued, backoff sleeps
requested, milliseconds actually slept, progress-callback invocations as
`(partialData, recordCount, page, totalPages)`). -/
structure St where
  polls : Nat := 0
  log : List String := []
  requests : Nat := 0
  sleeps : List Nat := []
  slept : Nat := 0
  progress : List (List (List String) × Nat × Nat × Nat) := []
deriving DecidableEq, Repr

/-- The state at session start. -/
def St0 : St := {}

/-- `addDebug(msg)` from cdx-debug.js: append one `[timestamp] message`
entry; the timestamp comes from the environment's clock stream. -/
def addDebugS (env : Env) (st : St) (msg : String) : St :=
  { st with log := st.log ++ [("[" ++ env.clock st.log.length ++ "] ") ++ msg] }

/-- `getDebugLog()` from cdx-debug.js: the entries joined with newlines. -/
def getDebugLogS (st : St) : String :=
  String.intercalate ("\n") st.log

/-- Characters `encodeURIComponent` leaves unescaped:
`A-Z a-z 0-9 - _ . ! ~ * ' ( )` (by code point). -/
def isUnreservedURIChar (c : Char) : Bool :=
  let n := c.toNat
  decide ((65 ≤ n ∧ n ≤ 90) ∨ (97 ≤ n ∧ n ≤ 122) ∨ (48 ≤ n ∧ n ≤ 57) ∨
    n = 45 ∨ n = 95 ∨ n = 46 ∨ n = 33 ∨ n = 126 ∨ n = 42 ∨ n = 39 ∨ n = 40 ∨ n = 41)

/-- Uppercase hexadecimal digit for `0 ≤ n < 16`. -/
def hexDigitChar (n : Nat) : Char :=
  if n < 10 then Char.ofNat (48 + n) else Char.ofNat (55 + n)

/-- UTF-8 byte sequence of one character. -/
def utf8Bytes (c : Char) : List Nat :=
  let n := c.toNat
  if n < 128 then [n]
  else if n < 2048 then [192 + n / 64, 128 + n % 64]
  else if n < 65536 then [224 + n / 4096, 128 + (n / 64) % 64, 128 + n % 64]
  else [240 + n / 262144, 128 + (n / 4096) % 64, 128 + (n / 64) % 64, 128 + n % 64]

/-- `%XX` escape of one byte (code point 37 is the percent sign). -/
def percentEncodeByte (b : Nat) : String :=
  String.mk [Char.ofNat 37, hexDigitChar (b / 16), hexDigitChar (b % 16)]

/-- JS `encodeURIComponent`: unreserved characters pass through, everything
else is percent-encoded byte-by-byte in UTF-8. -/
def encodeURIComponent (s : String) : String :=
  s.data.foldl
    (fun acc c =>
      if isUnreservedURIChar c then acc ++ String.mk [c]
      else acc ++ String.join ((utf8Bytes c).map percentEncodeByte))
    ""

/-- `buildCDXUrl(domain, resumeKey)` from cdx-fetch.js: the fixed query
string, with `&resumeKey=` appended only when the cursor is non-empty. -/
def buildCDXUrl (domain resumeKey : String) : String :=
  let url := ("https://web.archive.org/cdx/search/cdx?url=*." ++ domain ++
    "&output=json&fl=original,timestamp,statuscode,mimetype&collapse=urlkey&limit=" ++
    toString CDX_BATCH_SIZE ++ "&showResumeKey=true")
  if resumeKey ≠ "" then url ++ "&resumeKey=" ++ encodeURIComponent resumeKey else url

/-- `Math.ceil(ms / checkInterval)` with the 250 ms check interval of
`cancellableSleep`. -/
def sleepIterations (ms : Nat) : Nat := (ms + 249) / 250

/-- Duration of tick `i` of a `ms`-long sleep:
`Math.min(checkInterval, ms - i * checkInterval)`. -/
def tickMs (ms i : Nat) : Nat := min 250 (ms - i * 250)

/-- Total duration of ticks `i, i+1, …, i+n-1` of a `ms`-long sleep. -/
def tickSum (ms i : Nat) : Nat → Nat
  | 0 => 0
  | n + 1 => tickMs ms i + tickSum ms (i + 1) n

/-- Loop body of `cancellableSleep` (cdx-retry.js): sleep one tick, then poll
the stored cancellation flag; if it is set, log and throw the `Cancelled`
error, otherwise continue with the next tick.  `i` is the loop index, the
second argument the number of iterations left. -/
def sleepIter (env : Env) (ms : Nat) : Nat → Nat → St → Except JSError Unit × St
  | _, 0, st => (.ok (), st)
  | i, n + 1, st =>
    let st1 : St := { st with slept := st.slept + tickMs ms i }
    let c := env.cancel st1.polls
    let st2 : St := { st1 with polls := st1.polls + 1 }
    if c then
      let st3 := addDebugS env st2 ("Cancelled during backoff wait")
      (.error { message := "Cancelled by user", cancelled := true,
                debugLog := getDebugLogS st3 }, st3)
    else
      sleepIter env ms (i + 1) n st2

/-- `cancellableSleep(ms)` from cdx-retry.js: `Math.ceil(ms / 250)` ticks of
at most 250 ms each, polling the cancellation flag after every tick. -/
def cancellableSleep (env : Env) (ms : Nat) (st : St) : Except JSError Unit × St :=
  sleepIter env ms 0 (sleepIterations ms) st

/-- Result of one `fetchCDXPage` activation: the parsed page or a thrown
error, with the threaded state. -/
abbrev FetchRes := Except JSError PageResult × St

/-- The `retryFn` closure `(nextRetry) => fetchCDXPage(domain, resumeKey, nextRetry)`
passed to the retry handlers. -/
abbrev RetryFn := Nat → St → FetchRes

/-- `handleRateLimit(retryFn, retryCount, status)` from cdx-retry.js: below
`MAX_RETRIES`, wait `2^retryCount * 10000` ms (interruptibly) and retry with
the next attempt number; otherwise throw the rate-limit-exhausted error.
A cancellation thrown by `cancellableSleep` propagates. -/
def handleRateLimit (env : Env) (retryFn : RetryFn) (retryCount status : Nat)
    (st : St) : FetchRes :=
  if retryCount < MAX_RETRIES then
    let backoff := 2 ^ retryCount * 10000
    let st := addDebugS env st
      (("Rate limited (" ++ toString status ++ "), waiting ") ++ toString backoff ++ "ms...")
    let st : St := { st with sleeps := st.sleeps ++ [backoff] }
    match cancellableSleep env backoff st with
    | (.ok _, st) => retryFn (retryCount + 1) st
    | (.error e, st) => (.error e, st)
  else
    (.error { message := "Rate limited after " ++ toString MAX_RETRIES ++ " retries",
              debugLog := getDebugLogS st }, st)

/-- `handleFetchError(error, retryFn, retryCount, elapsed, wasCancelled)` from
cdx-retry.js: an `AbortError` is either the user cancellation (rethrown as the
`Cancelled` error) or a timeout (retried with `2^retryCount * 5000` ms backoff
up to `MAX_RETRIES`, then the timeout-exhausted error); a `TypeError` below
`MAX_RETRIES` is retried with the same backoff; everything else is logged,
given a debug log if it has none, and rethrown. -/
def handleFetchError (env : Env) (error : JSError) (retryFn : RetryFn)
    (retryCount elapsed : Nat) (wasCancelled : Bool) (st : St) : FetchRes :=
  if error.name = "AbortError" then
    if wasCancelled then
      let st := addDebugS env st (("Cancelled by user after " ++ toString elapsed) ++ "ms")
      (.error { message := "Cancelled by user", cancelled := true,
                debugLog := getDebugLogS st }, st)
    else
      let st := addDebugS env st
        (("TIMEOUT after " ++ toString elapsed ++ "ms (limit: ") ++ toString CDX_TIMEOUT_MS ++ "ms)")
      if retryCount < MAX_RETRIES then
        let backoff := 2 ^ retryCount * 5000
        let st := addDebugS env st
          (("Will retry in " ++ toString backoff ++ "ms (attempt ") ++
            toString (retryCount + 1) ++ "/" ++ toString MAX_RETRIES ++ ")")
        let st : St := { st with sleeps := st.sleeps ++ [backoff] }
        match cancellableSleep env backoff st with
        | (.ok _, st) => retryFn (retryCount + 1) st
        | (.error e, st) => (.error e, st)
      else
        let st := addDebugS env st
          ("FAILED - exhausted all " ++ toString MAX_RETRIES ++ " retries")
        (.error { message := ("Request timed out after " ++ toString MAX_RETRIES ++
                    " retries (" ++ toString (CDX_TIMEOUT_MS / 1000)) ++ "s timeout each)",
                  debugLog := getDebugLogS st }, st)
  else if retryCount < MAX_RETRIES ∧ error.name = "TypeError" then
    let st := addDebugS env st
      (("Network error after " ++ toString elapsed ++ "ms: ") ++ error.message)
    let backoff := 2 ^ retryCount * 5000
    let st := addDebugS env st
      (("Will retry in " ++ toString backoff ++ "ms (attempt ") ++
        toString (retryCount + 1) ++ "/" ++ toString MAX_RETRIES ++ ")")
    let st : St := { st with sleeps := st.sleeps ++ [backoff] }
    match cancellableSleep env backoff st with
    | (.ok _, st) => retryFn (retryCount + 1) st
    | (.error e, st) => (.error e, st)
  else
    let st := addDebugS env st (("ERROR: " ++ error.name ++ ": ") ++ error.message)
    let st := addDebugS env st (("Elapsed: " ++ toString elapsed) ++ "ms")
    (.error { error with
        debugLog := if error.debugLog = "" then getDebugLogS st else error.debugLog }, st)

/-- `fetchCDXPage(domain, resumeKey, retryCount)` from cdx-fetch.js, with an
explicit recursion budget (first `Nat` argument).  Faithful to the JS
`try/catch` layout: an error coming out of `handleRateLimit` (which runs
inside the `try`) is passed to this level's `handleFetchError`, while the
result of a retry started by a handler (running inside the `catch`) is
returned as is.  The request counter is bumped once per activation; the
`ABORT triggered` / `Cancel requested` timer callbacks live inside the folded
network outcome. -/
def fetchCDXPageGas (env : Env) (domain : String) :
    Nat → String → Nat → St → FetchRes
  | 0, _, _, st => (.error { name := "Gas", message := "retry budget exhausted" }, st)
  | g + 1, resumeKey, retryCount, st =>
    let url := buildCDXUrl domain resumeKey
    let st := addDebugS env st
      ("Request " ++ (if retryCount > 0 then ("(retry " ++ toString retryCount) ++ ")" else "(initial)"))
    let st := addDebugS env st ("URL: " ++ url)
    let st := addDebugS env st (("Timeout: " ++ toString CDX_TIMEOUT_MS) ++ "ms")
    let st : St := { st with requests := st.requests + 1 }
    let retryFn : RetryFn := fun n st => fetchCDXPageGas env domain g resumeKey n st
    match env.net domain resumeKey retryCount with
    | .http status body elapsed =>
      let st := addDebugS env st
        (("Response: " ++ toString status ++ " (") ++ toString elapsed ++ "ms)")
      if status = 503 ∨ status = 429 then
        match handleRateLimit env retryFn retryCount status st with
        | (.ok p, st) => (.ok p, st)
        | (.error e, st) => handleFetchError env e retryFn retryCount elapsed false st
      else if status < 200 ∨ 300 ≤ status then
        let st := addDebugS env st
          (("ERROR: HTTP " ++ toString status ++ " after ") ++ toString elapsed ++ "ms")
        let e : JSError := { message := "CDX API returned " ++ toString status,
                             debugLog := getDebugLogS st }
        handleFetchError env e retryFn retryCount elapsed false st
      else
        let st := addDebugS env st
          (("SUCCESS: received " ++ toString body.length ++ " rows in ") ++ toString elapsed ++ "ms")
        (.ok (parseCDXResponse body), st)
    | .fetchError name msg wasCancelled elapsed =>
      handleFetchError env { name := name, message := msg } retryFn retryCount
        elapsed wasCancelled st

/-- `fetchCDXPage` entry point.  Every retry strictly increases `retryCount`
and retries only happen while `retryCount < MAX_RETRIES`, so a budget of
`MAX_RETRIES + 1` activations is never exhausted. -/
def fetchCDXPage (env : Env) (domain resumeKey : String) (retryCount : Nat)
    (st : St) : FetchRes :=
  fetchCDXPageGas env domain (MAX_RETRIES + 1) resumeKey retryCount st

/-- The `while (true)` pagination loop of `fetchAllCDXData` (cdx.js), with an
explicit page budget (the `Nat` argument after `domain`).  Arguments mirror
the loop state: current `resumeKey`, `allRecords`, `page`.  Each iteration:
poll the cancellation flag (throw `Cancelled` if set), fetch the page, poll
again (throw `Cancelled` without appending if set), append the records,
invoke the progress callback with `formatRecordsForDisplay` of the
accumulated records, and stop when `hasMore` is false or the cursor is
empty — otherwise continue with the new cursor. -/
def fetchAllCDXDataLoop (env : Env) (domain : String) :
    Nat → String → List CDXRecord → Nat → St → Except JSError (List (List String)) × St
  | 0, _, _, _, st => (.error { name := "Gas", message := "page budget exhausted" }, st)
  | gas + 1, resumeKey, allRecords, page, st =>
    let c := env.cancel st.polls
    let st : St := { st with polls := st.polls + 1 }
    if c then
      let st := addDebugS env st ("Fetch cancelled by user")
      (.error { message := "Cancelled by user", cancelled := true,
                debugLog := getDebugLogS st }, st)
    else
      let page := page + 1
      match fetchCDXPage env domain resumeKey 0 st with
      | (.error e, st) => (.error e, st)
      | (.ok result, st) =>
        let c := env.cancel st.polls
        let st : St := { st with polls := st.polls + 1 }
        if c then
          let st := addDebugS env st ("Fetch cancelled by user after page completed")
          (.error { message := "Cancelled by user", cancelled := true,
                    debugLog := getDebugLogS st }, st)
        else
          let allRecords := allRecords ++ result.records
          let partialData := formatRecordsForDisplay allRecords
          let st : St := { st with progress := st.progress ++
            [(partialData, allRecords.length, page, if result.hasMore then 0 else page)] }
          if ¬result.hasMore ∨ result.resumeKey = "" then
            (.ok (formatRecordsForDisplay allRecords), st)
          else
            fetchAllCDXDataLoop env domain gas result.resumeKey allRecords page st

/-- `fetchAllCDXData(domain, progressCallback)` from cdx.js: the pagination
loop started with an empty cursor, no accumulated records and page 0. -/
def fetchAllCDXData (env : Env) (domain : String) (gas : Nat) (st : St) :
    Except JSError (List (List String)) × St :=
  fetchAllCDXDataLoop env domain gas ("") [] 0 st

deriving instance DecidableEq for Except

/-- One upstream run of pages reachable from `cursor`: each page is served
with HTTP 200, parses to the given records, and hands a non-empty cursor
with `hasMore = true` to the next page — except the final page, which parses
with `hasMore = false` (and hence an empty resume key).  The `Nat` index
counts the pages of the run. -/
inductive CDXChain (env : Env) (domain : String) : String → List CDXRecord → Nat → Prop where
  | last (cursor : String) (body : List (List String)) (elapsed : Nat)
      (recs : List CDXRecord)
      (hnet : env.net domain cursor 0 = .http 200 body elapsed)
      (hparse : parseCDXResponse body =
        { records := recs, resumeKey := "", hasMore := false }) :
      CDXChain env domain cursor recs 1
  | more (cursor : String) (body : List (List String)) (elapsed : Nat)
      (recs rest : List CDXRecord) (k : String) (n : Nat)
      (hnet : env.net domain cursor 0 = .http 200 body elapsed)
      (hparse : parseCDXResponse body =
        { records := recs, resumeKey := k, hasMore := true })
      (hk : k ≠ "")
      (hrest : CDXChain env domain k rest n) :
      CDXChain env domain cursor (recs ++ rest) (n + 1)

/-- "Is a display-formatted progress trace": every recorded progress-callback
invocation passed `formatRecordsForDisplay` of some record list together with
that list's length. -/
def displayShaped (pr : List (List (List String) × Nat × Nat × Nat)) : Prop :=
  ∀ pd cnt pg tp, (pd, cnt, pg, tp) ∈ pr →
    ∃ recs, pd = formatRecordsForDisplay recs ∧ cnt = recs.length

/-- Upstream whose single page answers HTTP 200 with a body whose last row is
the one-field row `[""]`: it parses to `hasMore = true` with an empty resume
key (a malformed upstream response in the spec's terms). -/
def envEmptyCursor : Env :=
  { clock := fun _ => ""
    cancel := fun _ => false
    net := fun _ _ _ => .http 200 [["h1", "h2", "h3", "h4"], ["u", "t", "s", "m"], [""]] 5 }

/-- Upstream serving one clean page (cursor `K`, more pages announced) whose
single data row starts with `a.example.com`; the stored cancellation flag
becomes set from the third poll on (i.e. right before page 2 would start). -/
def envCancelPage2A : Env :=
  { clock := fun _ => ""
    cancel := fun n => decide (2 ≤ n)
    net := fun _ _ _ => .http 200
      [["h1", "h2", "h3", "h4"], ["a.example.com", "t", "s", "m"], ["K"]] 5 }

/-- Same as `envCancelPage2A` except the data row starts with
`b.example.com`: the two sessions accumulate different records but are
otherwise indistinguishable. -/
def envCancelPage2B : Env :=
  { clock := fun _ => ""
    cancel := fun n => decide (2 ≤ n)
    net := fun _ _ _ => .http 200
      [["h1", "h2", "h3", "h4"], ["b.example.com", "t", "s", "m"], ["K"]] 5 }

/-- Upstream where every request rejects with a timeout `AbortError` and the
user never cancels. -/
def envAlwaysTimeout : Env :=
  { clock := fun _ => ""
    cancel := fun _ => false
    net := fun _ _ _ => .fetchError "AbortError" "The operation was aborted" false 60000 }

/-- First page body of the two-page run: two data rows and resume key `K1`. -/
def rawPage1 : List (List String) :=
  [["h1", "h2", "h3", "h4"], ["u1", "t1", "s1", "m1"], ["u2", "t2", "s2", "m2"], ["K1"]]

/-- Second page body of the two-page run: one data row, no resume key. -/
def rawPage2 : List (List String) :=
  [["h1", "h2", "h3", "h4"], ["u3", "t3", "s3", "m3"]]

/-- Upstream serving `rawPage1` for the empty cursor and `rawPage2` for the
cursor `K1`; never rate limited, never cancelled. -/
def envTwoPages : Env :=
  { clock := fun _ => ""
    cancel := fun _ => false
    net := fun _ rk _ => if rk = "" then .http 200 rawPage1 5 else .http 200 rawPage2 6 }

/-- Environment whose stored cancellation flag is already set at session
start. -/
def envCancelNow : Env :=
  { clock := fun _ => ""
    cancel := fun _ => true
    net := fun _ _ _ => .http 200 [] 0 }

/-- Upstream answering HTTP 503 on attempts 0 and 1 and HTTP 200 with a
single final page on attempt 2. -/
def envRateLimited : Env :=
  { clock := fun _ => ""
    cancel := fun _ => false
    net := fun _ _ r =>
      if r < 2 then .http 503 [] 5
      else .http 200 [["h1", "h2", "h3", "h4"], ["u", "t", "s", "m"]] 7 }

/-- Environment whose stored cancellation flag becomes set from the second
poll on; the network is irrelevant (used for backoff-sleep runs). -/
def envCancelDuringSleep : Env :=
  { clock := fun _ => ""
    cancel := fun n => decide (1 ≤ n)
    net := fun _ _ _ => .http 200 [] 0 }

/-- Upstream serving one final page; the stored cancellation flag is set
exactly at the second poll — the orchestrator's post-fetch check. -/
def envCancelAfterFetch : Env :=
  { clock := fun _ => ""
    cancel := fun n => decide (n = 1)
    net := fun _ _ _ => .http 200 rawPage2 5 }

/-- Upstream serving one clean final page with one record; never cancelled. -/
def envOnePage : Env :=
  { clock := fun _ => ""
    cancel := fun _ => false
    net := fun _ _ _ => .http 200 [["h1", "h2", "h3", "h4"], ["u", "t", "s", "m"]] 5 }

theorem tickMs_le (ms i : Nat) : tickMs ms i ≤ 250 := by
  simp [tickMs]

theorem tickSum_le (ms i n : Nat) : tickSum ms i n ≤ n * 250 := by
  induction n generalizing i with
  | zero => simp [tickSum]
  | succ m ih =>
    have h1 := tickMs_le ms i
    have h2 := ih (i + 1)
    simp only [tickSum]
    calc tickMs ms i + tickSum ms (i + 1) m ≤ 250 + m * 250 := Nat.add_le_add h1 h2
      _ = (m + 1) * 250 := by ring

theorem sleepIter_cancel (env : Env) (ms : Nat) :
    ∀ (k n i : Nat) (st : St), k < n →
    (∀ j, j < k → env.cancel (st.polls + j) = false) →
    env.cancel (st.polls + k) = true →
    ∃ st2,
      sleepIter env ms i n st =
        (.error { message := "Cancelled by user", cancelled := true,
                  debugLog := getDebugLogS st2 }, st2) ∧
      st2.slept = st.slept + tickSum ms i (k + 1) ∧
      st2.polls = st.polls + (k + 1) := by
  intro k
  induction k with
  | zero =>
    intro n i st hk hfalse htrue
    cases n with
    | zero => omega
    | succ m =>
      simp only [Nat.add_zero] at htrue
      refine ⟨addDebugS env
        { st with slept := st.slept + tickMs ms i, polls := st.polls + 1 }
        ("Cancelled during backoff wait"), ?_, ?_, ?_⟩
      · simp [sleepIter, htrue]
      · simp [addDebugS, tickSum]
      · simp [addDebugS]
  | succ k ih =>
    intro n i st hk hfalse htrue
    cases n with
    | zero => omega
    | succ m =>
      have h0 : env.cancel st.polls = false := by
        have := hfalse 0 (Nat.succ_pos k)
        simpa using this
      obtain ⟨st3, heq, hsl, hpl⟩ := ih m (i + 1)
        { st with slept := st.slept + tickMs ms i, polls := st.polls + 1 }
        (by omega)
        (by
          intro j hj
          have := hfalse (j + 1) (by omega)
          simpa [Nat.add_assoc, Nat.add_comm 1 j] using this)
        (by
          show env.cancel (st.polls + 1 + k) = true
          have h2 : st.polls + 1 + k = st.polls + (k + 1) := by omega
          rw [h2]
          exact htrue)
      simp only [tickSum] at hsl
      simp at hsl hpl
      refine ⟨st3, ?_, ?_, ?_⟩
      · simp [sleepIter, h0]
        exact heq
      · simp only [tickSum]
        omega
      · omega

theorem sleepIter_no_cancel_eq (env : Env) (ms : Nat)
    (hc : ∀ j, env.cancel j = false) :
    ∀ (n i : Nat) (st : St), sleepIter env ms i n st =
      (.ok (), { st with polls := st.polls + n,
                         slept := st.slept + tickSum ms i n }) := by
  intro n
  induction n with
  | zero => intro i st; rfl
  | succ m ih =>
    intro i st
    cases st with
    | mk p l rq sl spt pr =>
      simp only [sleepIter, hc]
      rw [ih]
      simp only [tickSum, Bool.false_eq_true, if_false, Prod.mk.injEq,
        Except.ok.injEq, true_and, St.mk.injEq]
      exact ⟨by omega, by omega, trivial⟩

theorem cancellableSleep_no_cancel_eq (env : Env)
    (hc : ∀ j, env.cancel j = false) (ms : Nat) (st : St) :
    cancellableSleep env ms st =
      (.ok (), { st with polls := st.polls + sleepIterations ms,
                         slept := st.slept + tickSum ms 0 (sleepIterations ms) }) :=
  sleepIter_no_cancel_eq env ms hc (sleepIterations ms) 0 st

theorem sleepIter_progress (env : Env) (ms : Nat) :
    ∀ (n i : Nat) (st : St), (sleepIter env ms i n st).2.progress = st.progress := by
  intro n
  induction n with
  | zero => intro i st; rfl
  | succ m ih =>
    intro i st
    cases hcv : env.cancel st.polls with
    | true => simp [sleepIter, hcv, addDebugS]
    | false =>
      simp only [sleepIter, hcv, Bool.false_eq_true, if_false]
      exact ih (i + 1) _

theorem cancellableSleep_progress (env : Env) (ms : Nat) (st : St) :
    (cancellableSleep env ms st).2.progress = st.progress :=
  sleepIter_progress env ms (sleepIterations ms) 0 st

theorem handleRateLimit_progress (env : Env) (retryFn : RetryFn)
    (r s : Nat) (st : St)
    (hre : ∀ n st1, (retryFn n st1).2.progress = st1.progress) :
    (handleRateLimit env retryFn r s st).2.progress = st.progress := by
  simp only [handleRateLimit]
  split
  · split
    next u st2 heq =>
      have h3 := congrArg (fun q => q.2.progress) heq
      simp only at h3
      rw [cancellableSleep_progress] at h3
      rw [hre, ← h3]
      simp [addDebugS]
    next e2 st2 heq =>
      have h3 := congrArg (fun q => q.2.progress) heq
      simp only at h3
      rw [cancellableSleep_progress] at h3
      rw [← h3]
      simp [addDebugS]
  · simp

theorem handleFetchError_progress (env : Env) (error : JSError) (retryFn : RetryFn)
    (r elapsed : Nat) (w : Bool) (st : St)
    (hre : ∀ n st1, (retryFn n st1).2.progress = st1.progress) :
    (handleFetchError env error retryFn r elapsed w st).2.progress = st.progress := by
  simp only [handleFetchError]
  split
  · split
    · simp [addDebugS]
    · split
      · split
        next u st2 heq =>
          have h3 := congrArg (fun q => q.2.progress) heq
          simp only at h3
          rw [cancellableSleep_progress] at h3
          rw [hre, ← h3]
          simp [addDebugS]
        next e2 st2 heq =>
          have h3 := congrArg (fun q => q.2.progress) heq
          simp only at h3
          rw [cancellableSleep_progress] at h3
          rw [← h3]
          simp [addDebugS]
      · simp [addDebugS]
  · split
    · split
      next u st2 heq =>
        have h3 := congrArg (fun q => q.2.progress) heq
        simp only at h3
        rw [cancellableSleep_progress] at h3
        rw [hre, ← h3]
        simp [addDebugS]
      next e2 st2 heq =>
        have h3 := congrArg (fun q => q.2.progress) heq
        simp only at h3
        rw [cancellableSleep_progress] at h3
        rw [← h3]
        simp [addDebugS]
    · simp [addDebugS]

theorem fetchCDXPageGas_progress (env : Env) (domain : String) :
    ∀ (g : Nat) (rk : String) (r : Nat) (st : St),
      (fetchCDXPageGas env domain g rk r st).2.progress = st.progress := by
  intro g
  induction g with
  | zero => intro rk r st; rfl
  | succ g ih =>
    intro rk r st
    have hre : ∀ (n : Nat) (st1 : St),
        (fetchCDXPageGas env domain g rk n st1).2.progress = st1.progress :=
      fun n st1 => ih rk n st1
    simp only [fetchCDXPageGas]
    split
    · split
      · split
        next p st2 heq =>
          have h3 := congrArg (fun q => q.2.progress) heq
          simp only at h3
          rw [handleRateLimit_progress env _ _ _ _ hre] at h3
          simp only [addDebugS] at h3
          simp only []
          rw [← h3]
        next e2 st2 heq =>
          have h3 := congrArg (fun q => q.2.progress) heq
          simp only at h3
          rw [handleRateLimit_progress env _ _ _ _ hre] at h3
          rw [handleFetchError_progress env _ _ _ _ _ _ hre]
          rw [← h3]
          simp [addDebugS]
      · split
        · rw [handleFetchError_progress env _ _ _ _ _ _ hre]
          simp [addDebugS]
        · simp [addDebugS]
    · rw [handleFetchError_progress env _ _ _ _ _ _ hre]
      simp [addDebugS]

theorem fetchCDXPage_progress (env : Env) (domain rk : String) (r : Nat) (st : St) :
    (fetchCDXPage env domain rk r st).2.progress = st.progress :=
  fetchCDXPageGas_progress env domain (MAX_RETRIES + 1) rk r st

theorem displayShaped_append (pr : List (List (List String) × Nat × Nat × Nat))
    (recs : List CDXRecord) (pg tp : Nat) (h : displayShaped pr) :
    displayShaped (pr ++ [(formatRecordsForDisplay recs, recs.length, pg, tp)]) := by
  intro pd cnt pg2 tp2 hmem
  rcases List.mem_append.mp hmem with h1 | h2
  · exact h pd cnt pg2 tp2 h1
  · simp only [List.mem_singleton, Prod.mk.injEq] at h2
    obtain ⟨e1, e2, -⟩ := h2
    exact ⟨recs, e1, e2⟩

theorem fetchAllCDXDataLoop_chain (env : Env) (domain : String)
    (hc : ∀ j, env.cancel j = false) :
    ∀ (cursor : String) (recs : List CDXRecord) (n : Nat),
    CDXChain env domain cursor recs n →
    ∀ (gas : Nat) (acc : List CDXRecord) (p : Nat) (st : St), n ≤ gas →
    (fetchAllCDXDataLoop env domain gas cursor acc p st).1 =
      .ok (formatRecordsForDisplay (acc ++ recs)) := by
  intro cursor recs n ch
  induction ch with
  | last cursor body elapsed recs hnet hparse =>
    intro gas acc p st hgas
    cases gas with
    | zero => omega
    | succ g =>
      simp [fetchAllCDXDataLoop, fetchCDXPage, fetchCDXPageGas, MAX_RETRIES,
        hc, hnet, hparse, addDebugS]
  | more cursor body elapsed recs rest k n hnet hparse hk hrest ih =>
    intro gas acc p st hgas
    cases gas with
    | zero => omega
    | succ g =>
      simp [fetchAllCDXDataLoop, fetchCDXPage, fetchCDXPageGas, MAX_RETRIES,
        hc, hnet, hparse, hk, addDebugS]
      rw [ih g (acc ++ recs) (p + 1) _ (by omega)]
      simp [List.append_assoc]

theorem fetchAllCDXDataLoop_display (env : Env) (domain : String) :
    ∀ (gas : Nat) (cursor : String) (acc : List CDXRecord) (p : Nat) (st : St),
    displayShaped st.progress →
    displayShaped (fetchAllCDXDataLoop env domain gas cursor acc p st).2.progress ∧
    (∀ v, (fetchAllCDXDataLoop env domain gas cursor acc p st).1 = .ok v →
      ∃ recs, v = formatRecordsForDisplay recs) := by
  intro gas
  induction gas with
  | zero =>
    intro cursor acc p st hst
    exact ⟨hst, fun v hv => Except.noConfusion hv⟩
  | succ g ih =>
    intro cursor acc p st hst
    cases hcv : env.cancel st.polls with
    | true =>
      constructor
      · simpa [fetchAllCDXDataLoop, hcv, addDebugS] using hst
      · intro v hv
        simp [fetchAllCDXDataLoop, hcv] at hv
    | false =>
      rcases hfp : fetchCDXPage env domain cursor 0 { st with polls := st.polls + 1 }
        with ⟨res, st2⟩
      have hp2 : st2.progress = st.progress := by
        have h3 := fetchCDXPage_progress env domain cursor 0
          { st with polls := st.polls + 1 }
        rw [hfp] at h3
        simpa using h3
      cases res with
      | error e2 =>
        constructor
        · simpa [fetchAllCDXDataLoop, hcv, hfp, hp2] using hst
        · intro v hv
          simp [fetchAllCDXDataLoop, hcv, hfp] at hv
      | ok result =>
        cases hcv2 : env.cancel st2.polls with
        | true =>
          constructor
          · simpa [fetchAllCDXDataLoop, hcv, hfp, hcv2, addDebugS, hp2] using hst
          · intro v hv
            simp [fetchAllCDXDataLoop, hcv, hfp, hcv2] at hv
        | false =>
          have hshape : displayShaped (st2.progress ++
              [(formatRecordsForDisplay (acc ++ result.records),
                (acc ++ result.records).length, p + 1,
                if result.hasMore then 0 else p + 1)]) := by
            rw [hp2]
            exact displayShaped_append st.progress (acc ++ result.records) (p + 1) _ hst
          by_cases hbr : (result.hasMore = false ∨ result.resumeKey = "")
          · constructor
            · simpa [fetchAllCDXDataLoop, hcv, hfp, hcv2, hbr] using hshape
            · intro v hv
              simp [fetchAllCDXDataLoop, hcv, hfp, hcv2, hbr] at hv
              exact ⟨acc ++ result.records, hv.symm⟩
          · have hrec := ih result.resumeKey (acc ++ result.records) (p + 1)
              { st2 with polls := st2.polls + 1,
                         progress := st2.progress ++
                  [(formatRecordsForDisplay (acc ++ result.records),
                    (acc ++ result.records).length, p + 1,
                    if result.hasMore then 0 else p + 1)] } (by simpa using hshape)
            constructor
            · simpa [fetchAllCDXDataLoop, hcv, hfp, hcv2, hbr] using hrec.1
            · intro v hv
              simp [fetchAllCDXDataLoop, hcv, hfp, hcv2, hbr] at hv
              exact hrec.2 v (by simpa using hv)

/-- C1 (amended): when a page parses to an empty continuation cursor with
`hasMore = true` (the spec's "malformed upstream response"), `fetchAllCDXData`
terminates the session as a normal successful completion — it does not loop
forever, but it also does not raise a failure: the loop's exit test
`!hasMore || !resumeKey` treats the empty cursor as ordinary termination. -/
theorem fetchAllCDXData_emptyCursor_hasMore_completes (env : Env) (domain : String)
    (body : List (List String)) (e : Nat)
    (hc : ∀ j, env.cancel j = false)
    (h0 : env.net domain ("") 0 = .http 200 body e)
    (hM : (parseCDXResponse body).hasMore = true)
    (hK : (parseCDXResponse body).resumeKey = "") :
    ∃ st2, fetchAllCDXData env domain 1 St0 =
      (.ok (formatRecordsForDisplay (parseCDXResponse body).records), st2) := by
  show ∃ st2, fetchAllCDXDataLoop env domain (Nat.succ 0) ("") [] 0 St0 =
    (.ok (formatRecordsForDisplay (parseCDXResponse body).records), st2)
  simp [fetchAllCDXDataLoop, fetchCDXPage, fetchCDXPageGas, MAX_RETRIES, St0,
    h0, hM, hK, hc, addDebugS]

/-- C1 counterexample: a concrete upstream whose page body ends in the
one-field row `[""]` parses to `hasMore = true` with an empty `resumeKey`,
and `fetchAllCDXData` finishes that session with a successful `.ok` result —
not with the failure the claim requires. -/
theorem fetchAllCDXData_emptyCursor_hasMore_success_cex :
    parseCDXResponse [["h1", "h2", "h3", "h4"], ["u", "t", "s", "m"], [""]] =
      { records := [{ url := "u", timestamp := "t", statuscode := "s", mimetype := "m" }],
        resumeKey := "", hasMore := true } ∧
    (fetchAllCDXData envEmptyCursor "example.com" 5 St0).1 =
      .ok [["original", "timestamp", "statuscode", "mimetype"], ["u", "t", "s", "m"]] := by
  decide

/-- C1 witness: the amended theorem instantiated at the concrete `[""]`-cursor
upstream. -/
theorem fetchAllCDXData_emptyCursor_hasMore_completes_witness :
    ∃ st2, fetchAllCDXData envEmptyCursor "example.com" 1 St0 =
      (.ok (formatRecordsForDisplay
        (parseCDXResponse [["h1", "h2", "h3", "h4"], ["u", "t", "s", "m"], [""]]).records),
       st2) :=
  fetchAllCDXData_emptyCursor_hasMore_completes envEmptyCursor "example.com"
    [["h1", "h2", "h3", "h4"], ["u", "t", "s", "m"], [""]] 5
    (fun _ => rfl) rfl (by decide) (by decide)

/-- C2 (amended): a mid-session cancellation failure of `fetchAllCDXData`
carries `err.cancelled = true` and the debug log on the error object, but not
the accumulated records: the progress trace is left exactly as it was, and
nothing about the accumulated records is attached to the thrown error — a
partial result reaches the host only through the progress callbacks already
invoked. -/
theorem fetchAllCDXData_cancel_error_carries_log_not_records (env : Env)
    (domain resumeKey : String) (acc : List CDXRecord) (g p : Nat) (st : St)
    (hcl : env.cancel st.polls = true) :
    ∃ e2 st2, fetchAllCDXDataLoop env domain (g + 1) resumeKey acc p st =
        (.error e2, st2) ∧
      e2.cancelled = true ∧ e2.message = "Cancelled by user" ∧
      e2.debugLog = getDebugLogS st2 ∧
      st2.progress = st.progress := by
  simp [fetchAllCDXDataLoop, hcl, addDebugS, getDebugLogS]
  exact ⟨_, _, ⟨rfl, rfl⟩, rfl, rfl, rfl, rfl⟩

/-- C2 counterexample: no function of the thrown error object can recover the
accumulated partial result, because two sessions that accumulated different
records (they differ in the one record fetched before cancellation, visible
in their progress traces) throw literally identical error objects.  This
refutes "the error object ... carries the records accumulated so far". -/
theorem fetchAllCDXData_error_object_independent_of_records :
    ¬ ∃ extract : JSError → List (List (List String) × Nat × Nat × Nat),
      ∀ (env : Env) (domain : String) (gas : Nat) (e : JSError) (st2 : St),
        fetchAllCDXData env domain gas St0 = (.error e, st2) →
        extract e = st2.progress := by
  rintro ⟨extract, hex⟩
  have h1 := hex envCancelPage2A "example.com" 5 _ _ rfl
  have h2 := hex envCancelPage2B "example.com" 5 _ _ rfl
  exact absurd (h1.symm.trans h2) (by decide)

/-- C2 witness: the amended theorem instantiated at a session cancelled at its
first poll. -/
theorem fetchAllCDXData_cancel_error_carries_log_not_records_witness :
    ∃ e2 st2, fetchAllCDXDataLoop envCancelNow "example.com" 1 ("") [] 0 St0 =
        (.error e2, st2) ∧
      e2.cancelled = true ∧ e2.message = "Cancelled by user" ∧
      e2.debugLog = getDebugLogS st2 ∧
      st2.progress = St0.progress :=
  fetchAllCDXData_cancel_error_carries_log_not_records envCancelNow "example.com"
    ("") [] 0 0 St0 rfl

/-- C3 (amended): if every fetch attempt for a page rejects with a timeout
`AbortError` (and the user never cancels), `fetchCDXPage` retries
`MAX_RETRIES` times after the initial attempt — four page requests in total,
with backoffs `5000`, `10000`, `20000` ms — then fails with the
timeout-exhausted error and never issues a fifth request.  (The claim's
"exactly 3 attempts, never a fourth request" undercounts by one: the guard
`retryCount < MAX_RETRIES` admits retries 1..3 after attempt 0.) -/
theorem fetchCDXPage_timeout_exhausts_after_four_attempts (env : Env)
    (domain : String) (msg : Nat → String) (el : Nat → Nat)
    (hc : ∀ j, env.cancel j = false)
    (hnet : ∀ r, env.net domain ("") r = .fetchError "AbortError" (msg r) false (el r)) :
    ∃ e2 st2, fetchCDXPage env domain ("") 0 St0 = (.error e2, st2) ∧
      e2.message = "Request timed out after 3 retries (60s timeout each)" ∧
      e2.cancelled = false ∧
      st2.requests = 4 ∧ st2.sleeps = [5000, 10000, 20000] := by
  simp [fetchCDXPage, fetchCDXPageGas, handleFetchError, MAX_RETRIES, CDX_TIMEOUT_MS,
    St0, hnet, hc, cancellableSleep_no_cancel_eq env hc, addDebugS]
  exact ⟨_, _, ⟨rfl, rfl⟩, rfl, rfl, rfl, rfl⟩

/-- C3 counterexample: under an always-timing-out upstream the page fetch
issues a fourth page request (the request counter reaches 4, after the three
retry backoffs) before the terminal timeout error — the claim's "after
exactly 3 attempts ... never issues a fourth page request" is false on the
code. -/
theorem fetchCDXPage_timeout_issues_fourth_request :
    (fetchCDXPage envAlwaysTimeout "example.com" ("") 0 St0).2.requests = 4 ∧
    (fetchCDXPage envAlwaysTimeout "example.com" ("") 0 St0).1.toOption = none ∧
    (fetchCDXPage envAlwaysTimeout "example.com" ("") 0 St0).2.sleeps =
      [5000, 10000, 20000] := by
  decide

/-- C3 witness: the amended theorem instantiated at the concrete
always-timeout upstream. -/
theorem fetchCDXPage_timeout_exhausts_after_four_attempts_witness :
    ∃ e2 st2, fetchCDXPage envAlwaysTimeout "example.com" ("") 0 St0 =
        (.error e2, st2) ∧
      e2.message = "Request timed out after 3 retries (60s timeout each)" ∧
      e2.cancelled = false ∧
      st2.requests = 4 ∧ st2.sleeps = [5000, 10000, 20000] :=
  fetchCDXPage_timeout_exhausts_after_four_attempts envAlwaysTimeout "example.com"
    (fun _ => "The operation was aborted") (fun _ => 60000)
    (fun _ => rfl) (fun _ => rfl)

/-- C4 (confirmed): for an upstream that yields a finite chain of pages —
non-empty cursors and `hasMore = true` on every page before the last,
`hasMore = false` on the last — with cancellation never asserted,
`fetchAllCDXData` succeeds and returns exactly the page-order concatenation
of all pages' records (in the display format the orchestrator always
returns). -/
theorem fetchAllCDXData_returns_page_concatenation (env : Env) (domain : String)
    (recs : List CDXRecord) (n gas : Nat)
    (hc : ∀ j, env.cancel j = false)
    (ch : CDXChain env domain ("") recs n) (hgas : n ≤ gas) :
    (fetchAllCDXData env domain gas St0).1 = .ok (formatRecordsForDisplay recs) := by
  have h := fetchAllCDXDataLoop_chain env domain hc ("") recs n ch gas [] 0 St0 hgas
  simpa using h

/-- C4 witness: a concrete two-page run (two records then one record,
linked by the cursor `K1`) returns the three records in page order. -/
theorem fetchAllCDXData_returns_page_concatenation_witness :
    (fetchAllCDXData envTwoPages "example.com" 2 St0).1 =
      .ok (formatRecordsForDisplay
        [{ url := "u1", timestamp := "t1", statuscode := "s1", mimetype := "m1" },
         { url := "u2", timestamp := "t2", statuscode := "s2", mimetype := "m2" },
         { url := "u3", timestamp := "t3", statuscode := "s3", mimetype := "m3" }]) :=
  fetchAllCDXData_returns_page_concatenation envTwoPages "example.com"
    ([{ url := "u1", timestamp := "t1", statuscode := "s1", mimetype := "m1" },
      { url := "u2", timestamp := "t2", statuscode := "s2", mimetype := "m2" }] ++
     [{ url := "u3", timestamp := "t3", statuscode := "s3", mimetype := "m3" }])
    2 2 (fun _ => rfl)
    (CDXChain.more ("") rawPage1 5
      [{ url := "u1", timestamp := "t1", statuscode := "s1", mimetype := "m1" },
       { url := "u2", timestamp := "t2", statuscode := "s2", mimetype := "m2" }]
      [{ url := "u3", timestamp := "t3", statuscode := "s3", mimetype := "m3" }]
      "K1" 1 rfl (by decide) (by decide)
      (CDXChain.last "K1" rawPage2 6
        [{ url := "u3", timestamp := "t3", statuscode := "s3", mimetype := "m3" }]
        rfl (by decide)))
    (Nat.le_refl 2)

/-- C5 (confirmed): before issuing each page fetch the orchestrator polls the
cancellation flag; if it is set, the iteration throws the `Cancelled` error
(`err.cancelled = true`) without issuing another page request — in
particular, cancellation already set before the first page fetch fails the
session with zero network calls. -/
theorem fetchAllCDXData_cancel_before_fetch_no_network (env : Env)
    (domain resumeKey : String) (acc : List CDXRecord) (g p : Nat) (st : St)
    (hcl : env.cancel st.polls = true) :
    ∃ e2 st2, fetchAllCDXDataLoop env domain (g + 1) resumeKey acc p st =
        (.error e2, st2) ∧
      e2.cancelled = true ∧ e2.message = "Cancelled by user" ∧
      st2.requests = st.requests := by
  simp [fetchAllCDXDataLoop, hcl, addDebugS]
  exact ⟨_, _, ⟨rfl, rfl⟩, rfl, rfl, rfl⟩

/-- C5 witness: the theorem instantiated at a session whose cancellation flag
is set from the start: the request counter stays at zero. -/
theorem fetchAllCDXData_cancel_before_fetch_no_network_witness :
    ∃ e2 st2, fetchAllCDXDataLoop envCancelNow "example.com" 1 ("") [] 0 St0 =
        (.error e2, st2) ∧
      e2.cancelled = true ∧ e2.message = "Cancelled by user" ∧
      st2.requests = St0.requests :=
  fetchAllCDXData_cancel_before_fetch_no_network envCancelNow "example.com"
    ("") [] 0 0 St0 rfl

/-- C6 (confirmed): if the page fetch answers HTTP 503 on attempts 0 and 1
and HTTP 200 on attempt 2 (no cancellation), the run succeeds and the backoff
delays requested before the two retries are `2^0 * 10000 = 10000` ms and
`2^1 * 10000 = 20000` ms, totalling 30000 ms. -/
theorem fetchAllCDXData_rate_limit_backoff_total_30000 (env : Env)
    (domain : String) (b0 b1 body : List (List String)) (e0 e1 e2 : Nat)
    (hc : ∀ j, env.cancel j = false)
    (h0 : env.net domain ("") 0 = .http 503 b0 e0)
    (h1 : env.net domain ("") 1 = .http 503 b1 e1)
    (h2 : env.net domain ("") 2 = .http 200 body e2)
    (hm : (parseCDXResponse body).hasMore = false) :
    ∃ st2, fetchAllCDXData env domain 1 St0 =
        (.ok (formatRecordsForDisplay (parseCDXResponse body).records), st2) ∧
      st2.sleeps = [10000, 20000] ∧ st2.sleeps.sum = 30000 := by
  show ∃ st2, fetchAllCDXDataLoop env domain (Nat.succ 0) ("") [] 0 St0 =
      (.ok (formatRecordsForDisplay (parseCDXResponse body).records), st2) ∧
    st2.sleeps = [10000, 20000] ∧ st2.sleeps.sum = 30000
  simp [fetchAllCDXDataLoop, fetchCDXPage, fetchCDXPageGas, handleRateLimit,
    MAX_RETRIES, St0, h0, h1, h2, hc, hm,
    cancellableSleep_no_cancel_eq env hc, addDebugS]

/-- C6 witness: the theorem instantiated at the concrete 503/503/200
upstream. -/
theorem fetchAllCDXData_rate_limit_backoff_total_30000_witness :
    ∃ st2, fetchAllCDXData envRateLimited "example.com" 1 St0 =
        (.ok (formatRecordsForDisplay
          (parseCDXResponse [["h1", "h2", "h3", "h4"], ["u", "t", "s", "m"]]).records),
         st2) ∧
      st2.sleeps = [10000, 20000] ∧ st2.sleeps.sum = 30000 :=
  fetchAllCDXData_rate_limit_backoff_total_30000 envRateLimited "example.com"
    [] [] [["h1", "h2", "h3", "h4"], ["u", "t", "s", "m"]] 5 5 7
    (fun _ => rfl) rfl rfl rfl (by decide)

/-- C7 (confirmed): `parseCDXResponse` on `[header, dataRow1, dataRow2,
[cursor]]`, where both data rows have at least 4 fields, strips the one-field
last row into the continuation cursor, reports `hasMore = true`, skips the
header row, and returns exactly the records parsed from the two data
rows. -/
theorem parseCDXResponse_header_two_rows_cursor (hdr d1 d2 : List String)
    (k : String) (h1 : 4 ≤ d1.length) (h2 : 4 ≤ d2.length) :
    parseCDXResponse [hdr, d1, d2, [k]] =
      { records := [rowRecord d1, rowRecord d2], resumeKey := k, hasMore := true } := by
  simp [parseCDXResponse, List.dropLast, show ¬(d1.length < 4) by omega,
    show ¬(d2.length < 4) by omega]

/-- C7 witness: the theorem instantiated at a concrete four-row payload. -/
theorem parseCDXResponse_header_two_rows_cursor_witness :
    parseCDXResponse [["a", "b", "c", "d"], ["u1", "t1", "s1", "m1"],
        ["u2", "t2", "s2", "m2"], ["KEY"]] =
      { records := [rowRecord ["u1", "t1", "s1", "m1"],
                    rowRecord ["u2", "t2", "s2", "m2"]],
        resumeKey := "KEY", hasMore := true } :=
  parseCDXResponse_header_two_rows_cursor ["a", "b", "c", "d"]
    ["u1", "t1", "s1", "m1"] ["u2", "t2", "s2", "m2"] "KEY"
    (by decide) (by decide)

/-- C8 (confirmed): `cancellableSleep` decomposes a wait into ticks of at
most 250 ms; if the cancellation flag becomes set at the poll after tick `k`
(having been clear at the earlier polls), the sleep stops at the end of that
tick — the time actually slept is the sum of the first `k + 1` tick
durations, at most `(k + 1) * 250` ms, never the rest of the backoff — and a
`Cancelled` error (`err.cancelled = true`) is raised instead of a normal
return. -/
theorem cancellableSleep_aborts_on_cancel_tick (env : Env) (ms : Nat) (st : St)
    (k : Nat) (hk : k < sleepIterations ms)
    (hfalse : ∀ j, j < k → env.cancel (st.polls + j) = false)
    (htrue : env.cancel (st.polls + k) = true) :
    (∀ i, tickMs ms i ≤ 250) ∧
    ∃ e2 st2, cancellableSleep env ms st = (.error e2, st2) ∧
      e2.cancelled = true ∧ e2.message = "Cancelled by user" ∧
      st2.slept = st.slept + tickSum ms 0 (k + 1) ∧
      tickSum ms 0 (k + 1) ≤ (k + 1) * 250 := by
  obtain ⟨st2, heq, hsl, -⟩ :=
    sleepIter_cancel env ms k (sleepIterations ms) 0 st hk hfalse htrue
  exact ⟨fun i => tickMs_le ms i, _, st2, heq, rfl, rfl, hsl, tickSum_le ms 0 (k + 1)⟩

/-- C8 witness: a 600 ms sleep cancelled at the poll after its second tick
aborts with the `Cancelled` error after 500 ms of the 600. -/
theorem cancellableSleep_aborts_on_cancel_tick_witness :
    (∀ i, tickMs 600 i ≤ 250) ∧
    ∃ e2 st2, cancellableSleep envCancelDuringSleep 600 St0 = (.error e2, st2) ∧
      e2.cancelled = true ∧ e2.message = "Cancelled by user" ∧
      st2.slept = St0.slept + tickSum 600 0 (1 + 1) ∧
      tickSum 600 0 (1 + 1) ≤ (1 + 1) * 250 :=
  cancellableSleep_aborts_on_cancel_tick envCancelDuringSleep 600 St0 1
    (by decide)
    (by
      intro j hj
      have h0 : j = 0 := by omega
      subst h0
      rfl)
    rfl

/-- C9 (confirmed): if the cancellation flag is clear at the pre-fetch poll
but set at the post-fetch poll (the page itself having fetched cleanly), the
orchestrator throws the `Cancelled` error with the progress trace exactly as
it was: the just-fetched page's records are discarded — no progress callback
fires for that page and nothing of it reaches the host. -/
theorem fetchAllCDXData_cancel_after_fetch_discards_page (env : Env)
    (domain resumeKey : String) (acc : List CDXRecord) (g p : Nat) (st : St)
    (body : List (List String)) (e : Nat)
    (hc0 : env.cancel st.polls = false)
    (h0 : env.net domain resumeKey 0 = .http 200 body e)
    (hc1 : env.cancel (st.polls + 1) = true) :
    ∃ e2 st2, fetchAllCDXDataLoop env domain (g + 1) resumeKey acc p st =
        (.error e2, st2) ∧
      e2.cancelled = true ∧ e2.message = "Cancelled by user" ∧
      st2.progress = st.progress := by
  simp [fetchAllCDXDataLoop, fetchCDXPage, fetchCDXPageGas, MAX_RETRIES,
    h0, hc0, hc1, addDebugS]
  exact ⟨_, _, ⟨rfl, rfl⟩, rfl, rfl, rfl⟩

/-- C9 witness: the theorem instantiated at a session cancelled exactly at the
post-fetch check of its first page. -/
theorem fetchAllCDXData_cancel_after_fetch_discards_page_witness :
    ∃ e2 st2, fetchAllCDXDataLoop envCancelAfterFetch "example.com" 1 ("") [] 0 St0 =
        (.error e2, st2) ∧
      e2.cancelled = true ∧ e2.message = "Cancelled by user" ∧
      st2.progress = St0.progress :=
  fetchAllCDXData_cancel_after_fetch_discards_page envCancelAfterFetch "example.com"
    ("") [] 0 0 St0 rawPage2 5 rfl rfl rfl

/-- C10 (confirmed): every `partialData` recorded for a progress callback and
every successful return value of `fetchAllCDXData` is
`formatRecordsForDisplay` of some record list: first the header row
`["original", "timestamp", "statuscode", "mimetype"]`, then one 4-field row
per accumulated record, so its length is the reported record count plus one —
the orchestrator never hands out raw record objects. -/
theorem fetchAllCDXData_display_format_invariant (env : Env) (domain : String)
    (gas : Nat) :
    (∀ pd cnt pg tp, (pd, cnt, pg, tp) ∈ (fetchAllCDXData env domain gas St0).2.progress →
      ∃ recs, pd = formatRecordsForDisplay recs ∧ cnt = recs.length ∧
        pd.head? = some ["original", "timestamp", "statuscode", "mimetype"] ∧
        pd.length = cnt + 1) ∧
    (∀ v, (fetchAllCDXData env domain gas St0).1 = .ok v →
      ∃ recs, v = formatRecordsForDisplay recs ∧
        v.head? = some ["original", "timestamp", "statuscode", "mimetype"] ∧
        v.length = recs.length + 1) := by
  have h := fetchAllCDXDataLoop_display env domain gas ("") [] 0 St0
    (fun pd cnt pg tp hm => absurd hm (by simp [St0]))
  constructor
  · intro pd cnt pg tp hm
    obtain ⟨recs, e1, e2⟩ := h.1 pd cnt pg tp hm
    refine ⟨recs, e1, e2, ?_, ?_⟩
    · rw [e1]; rfl
    · rw [e1, e2]; simp [formatRecordsForDisplay]
  · intro v hv
    obtain ⟨recs, e1⟩ := h.2 v hv
    refine ⟨recs, e1, ?_, ?_⟩
    · rw [e1]; rfl
    · rw [e1]; simp [formatRecordsForDisplay]

/-- C10 witness: the invariant applied to the concrete progress entry of a
one-page session. -/
theorem fetchAllCDXData_display_format_invariant_witness :
    ∃ recs, ([["original", "timestamp", "statuscode", "mimetype"],
        ["u", "t", "s", "m"]] : List (List String)) = formatRecordsForDisplay recs ∧
      (1 : Nat) = recs.length ∧
      ([["original", "timestamp", "statuscode", "mimetype"],
        ["u", "t", "s", "m"]] : List (List String)).head? =
        some ["original", "timestamp", "statuscode", "mimetype"] ∧
      ([["original", "timestamp", "statuscode", "mimetype"],
        ["u", "t", "s", "m"]] : List (List String)).length = 1 + 1 :=
  (fetchAllCDXData_display_format_invariant envOnePage "example.com" 1).1
    [["original", "timestamp", "statuscode", "mimetype"], ["u", "t", "s", "m"]]
    1 1 1 (by decide)
